import Mathlib

/-!
Verification of the Detection Validation Engine
(`src/processors/validator.py`): a shallow embedding of the
`ExpectedResultBuilder` and `ResultValidator` classes, followed by theorems
settling the specification's claims about them.

Modelling conventions:
* Python floats are modelled by `ℚ` (exact rational arithmetic).
* Python `int(x)` on a float is truncation toward zero (`pyTrunc`);
  Python `round(x, 2)` is round-half-to-even at two decimals (`round2`);
  Python `//` on ints is floor division (`Int.fdiv`).
* Python dicts for frames/areas become structures; the
  `{f['frameId']: f for f in actual_results}` comprehension (last
  occurrence wins) becomes `lookupFrame`, a `find?` over the reversed list.
* A time string is either empty (falsy in Python) or a well-formed
  `"MM:SS"`; `Option TimeMark` models exactly that domain, `none` being
  the empty string and `some ⟨mm, ss⟩` the parsed `"MM:SS"` (on any other
  string the Python code raises, so no behaviour is lost).
* Python's `str.lower()` is `pyLower` (character-wise lowering; identical
  on the ASCII status labels involved), `max`/`min` on two floats are
  `pyMax`/`pyMin`, and `list.sort(key=...)`, a stable sort by key, is
  `List.insertionSort` by the same key (also a stable sort, hence
  pointwise equal to the source's sort).
* An `area` list not of length 4 makes the Python code raise; the model
  returns a zero box there, and no theorem uses such inputs.
-/

/-- Bounding box `{x, y, width, height}`, top-left anchored
(`area_to_bounding_box` output / detector box format). -/
structure BoundingBox where
  x : ℚ
  y : ℚ
  width : ℚ
  height : ℚ
  deriving DecidableEq

/-- One detected area: a rule code plus a bounding box. -/
structure DetectedArea where
  ruleCode : String
  boundingBox : BoundingBox
  deriving DecidableEq

/-- An expected frame produced by `build_expected_frames`:
`frameId` is the time-relative offset, `offset_frame` the event-relative
offset, `expect_id` the originating event's index. -/
structure ExpectedFrame where
  frameId : ℤ
  offset_frame : ℤ
  expect_id : ℕ
  detectedAreas : List DetectedArea
  deriving DecidableEq

/-- A frame of the AI system's actual results. -/
structure ActualFrame where
  frameId : ℤ
  detectedAreas : List DetectedArea
  deriving DecidableEq

/-- A parsed `"MM:SS"` time string (minutes, seconds). -/
structure TimeMark where
  mm : ℕ
  ss : ℕ
  deriving DecidableEq

/-- One ground-truth detection event `{eventStart, eventEnd, area}`;
`none` stands for the empty (falsy) time string. -/
structure DetectionEvent where
  eventStart : Option TimeMark
  eventEnd : Option TimeMark
  area : List ℤ
  deriving DecidableEq

/-- The expectation structure built by `build_from_sheet_row`. -/
structure Expectation where
  video_name : String
  test_case_id : String
  test_case_description : String
  expected_status : String
  expected_frames : List ExpectedFrame
  deriving DecidableEq

/-- Python `int()` applied to a rational: truncation toward zero. -/
def pyTrunc (q : ℚ) : ℤ :=
  if q < 0 then -⌊-q⌋ else ⌊q⌋

/-- Python `round()` to the nearest integer, ties going to even. -/
def pyRoundInt (q : ℚ) : ℤ :=
  if q - ⌊q⌋ < 1 / 2 then ⌊q⌋
  else if 1 / 2 < q - ⌊q⌋ then ⌊q⌋ + 1
  else if ⌊q⌋ % 2 = 0 then ⌊q⌋ else ⌊q⌋ + 1

/-- Python `round(x, 2)`: round to two decimal places. -/
def round2 (q : ℚ) : ℚ :=
  (pyRoundInt (q * 100) : ℚ) / 100

/-- Configuration of `ExpectedResultBuilder.__init__`: fps and compression ratio. -/
structure ExpectedResultBuilder where
  fps : ℚ
  compression_ratio : ℚ
  deriving DecidableEq

/-- The builder field `self.frame_rate = fps / compression_ratio`. -/
def ExpectedResultBuilder.frame_rate (b : ExpectedResultBuilder) : ℚ :=
  b.fps / b.compression_ratio

/-- The builder instantiated in the source: `fps=24, compression_ratio=2.5`. -/
def defaultBuilder : ExpectedResultBuilder := ⟨24, 5 / 2⟩

/-- Source `time_to_seconds`: `"MM:SS"` gives `int(MM) * 60 + int(SS)` seconds;
the empty string gives 0. -/
def time_to_seconds (time_str : Option TimeMark) : ℚ :=
  match time_str with
  | none => 0
  | some t => (t.mm : ℚ) * 60 + (t.ss : ℚ)

/-- Source `calculate_relative_frame_offset`:
`int((seconds(event_time) - seconds(event_start_time)) * frame_rate)`. -/
def ExpectedResultBuilder.calculate_relative_frame_offset
    (b : ExpectedResultBuilder) (event_time event_start_time : Option TimeMark) : ℤ :=
  pyTrunc ((time_to_seconds event_time - time_to_seconds event_start_time) * b.frame_rate)

/-- Source `area_to_bounding_box`: `[x1,y1,x2,y2] ↦ {x1, y1, x2-x1, y2-y1}`.
(Python raises when the list does not have exactly 4 elements; the model
returns a zero box there, and no theorem uses such inputs.) -/
def area_to_bounding_box (area : List ℤ) : BoundingBox :=
  match area with
  | [x1, y1, x2, y2] => ⟨(x1 : ℚ), (y1 : ℚ), ((x2 - x1 : ℤ) : ℚ), ((y2 - y1 : ℤ) : ℚ)⟩
  | _ => ⟨0, 0, 0, 0⟩

/-- The loop body of `build_expected_frames` for one enumerated detection
event: skip when a field is falsy, otherwise emit the start / floor-middle
/ end frames tagged with the event's index. -/
def eventFrames (b : ExpectedResultBuilder) (event_start_time : Option TimeMark)
    (rule_code : String) (index : ℕ) (detection : DetectionEvent) : List ExpectedFrame :=
  if detection.eventStart = none ∨ detection.eventEnd = none ∨ detection.area = [] then []
  else
    let start_offset := b.calculate_relative_frame_offset detection.eventStart event_start_time
    let end_offset := b.calculate_relative_frame_offset detection.eventEnd event_start_time
    let start_offset_frame := b.calculate_relative_frame_offset detection.eventStart detection.eventStart
    let end_offset_frame := b.calculate_relative_frame_offset detection.eventEnd detection.eventStart
    let middle_offset := Int.fdiv (start_offset + end_offset) 2
    let middle_offset_frame := Int.fdiv (start_offset_frame + end_offset_frame) 2
    let bbox := area_to_bounding_box detection.area
    [⟨start_offset, start_offset_frame, index, [⟨rule_code, bbox⟩]⟩,
     ⟨middle_offset, middle_offset_frame, index, [⟨rule_code, bbox⟩]⟩,
     ⟨end_offset, end_offset_frame, index, [⟨rule_code, bbox⟩]⟩]

/-- Source `build_expected_frames`: emit the three sampled frames per
well-formed detection event, then sort by `frameId`.
(`event_end_time` is accepted and unused, exactly as in the source.) -/
def build_expected_frames (b : ExpectedResultBuilder) (expected_result : List DetectionEvent)
    (event_start_time event_end_time : Option TimeMark) (rule_code : String) :
    List ExpectedFrame :=
  if expected_result = [] then []
  else
    List.insertionSort (fun a c => a.frameId ≤ c.frameId)
      (expected_result.enum.flatMap fun p => eventFrames b event_start_time rule_code p.1 p.2)

/-- Python `max(a, b)` on two numbers. -/
def pyMax (a b : ℚ) : ℚ := if a < b then b else a

/-- Python `min(a, b)` on two numbers. -/
def pyMin (a b : ℚ) : ℚ := if b < a then b else a

/-- Source `ResultValidator.calculate_iou`: axis-aligned IoU, rounded to two
decimal places, with the source's no-overlap and zero-union guards. -/
def calculate_iou (box1 box2 : BoundingBox) : ℚ :=
  let x1_min := box1.x
  let y1_min := box1.y
  let x1_max := box1.x + box1.width
  let y1_max := box1.y + box1.height
  let x2_min := box2.x
  let y2_min := box2.y
  let x2_max := box2.x + box2.width
  let y2_max := box2.y + box2.height
  let x_inter_min := pyMax x1_min x2_min
  let y_inter_min := pyMax y1_min y2_min
  let x_inter_max := pyMin x1_max x2_max
  let y_inter_max := pyMin y1_max y2_max
  if x_inter_max < x_inter_min ∨ y_inter_max < y_inter_min then 0
  else
    let inter_area := (x_inter_max - x_inter_min) * (y_inter_max - y_inter_min)
    let union_area := box1.width * box1.height + box2.width * box2.height - inter_area
    if union_area = 0 then 0
    else round2 (inter_area / union_area)

/-- The inner double loop of `find_first_detection_frame_with_iou`: does
`frame` contain an area whose rule code matches some expected area's and
whose IoU with it reaches the threshold?  (The source's
`if not detected_areas: continue` is subsumed: an empty list satisfies no
existential.) -/
def frameHasMatch (θ : ℚ) (expected_areas : List DetectedArea) (frame : ActualFrame) : Bool :=
  expected_areas.any fun exp_area =>
    frame.detectedAreas.any fun act_area =>
      exp_area.ruleCode == act_area.ruleCode &&
        decide (θ ≤ calculate_iou exp_area.boundingBox act_area.boundingBox)

/-- The frame scan of `find_first_detection_frame_with_iou`: return the
first matching frame's `frameId`, or 0 when none matches. -/
def findFirstAux (θ : ℚ) (expected_areas : List DetectedArea) : List ActualFrame → ℤ
  | [] => 0
  | frame :: rest =>
    if frameHasMatch θ expected_areas frame then frame.frameId
    else findFirstAux θ expected_areas rest

/-- Source `ResultValidator.find_first_detection_frame_with_iou`. -/
def find_first_detection_frame_with_iou (θ : ℚ) (frames : List ActualFrame)
    (expected_first_frame : ExpectedFrame) : ℤ :=
  if expected_first_frame.detectedAreas = [] then 0
  else findFirstAux θ expected_first_frame.detectedAreas frames

/-- One entry of `match_details` in `match_frame`. -/
structure MatchDetail where
  expected : DetectedArea
  actual : Option DetectedArea
  iou : ℚ
  matched : Bool
  deriving DecidableEq

/-- The body of the best-match inner loop of `match_frame`: keep
`(best_match, best_iou)`, updating only on strict improvement
(`iou > best_iou`) among areas with the matching rule code. -/
def bestUpdate (exp_area : DetectedArea) (best : Option DetectedArea × ℚ)
    (act_area : DetectedArea) : Option DetectedArea × ℚ :=
  if exp_area.ruleCode = act_area.ruleCode then
    if best.2 < calculate_iou exp_area.boundingBox act_area.boundingBox then
      (some act_area, calculate_iou exp_area.boundingBox act_area.boundingBox)
    else best
  else best

/-- The whole best-match loop: fold `bestUpdate` from `(None, 0.0)`. -/
def bestMatchFold (exp_area : DetectedArea) (actual_areas : List DetectedArea) :
    Option DetectedArea × ℚ :=
  actual_areas.foldl (bestUpdate exp_area) (none, 0)

/-- Source `ResultValidator.match_frame`. -/
def match_frame (θ : ℚ) (expected_frame actual_frame : ActualFrame) :
    Bool × List MatchDetail :=
  if expected_frame.detectedAreas = [] then (actual_frame.detectedAreas == [], [])
  else
    let details := expected_frame.detectedAreas.map fun exp_area =>
      let best := bestMatchFold exp_area actual_frame.detectedAreas
      (⟨exp_area, best.1, best.2, decide (θ ≤ best.2)⟩ : MatchDetail)
    (details.countP (·.matched) == expected_frame.detectedAreas.length, details)

/-- The `actual_frames_map` dict comprehension plus its
`.get(id, {'frameId': id, 'detectedAreas': []})` lookup: the last actual
frame with the given id, defaulting to a frame with no detections. -/
def lookupFrame (actual_results : List ActualFrame) (fid : ℤ) : ActualFrame :=
  match actual_results.reverse.find? (fun f => f.frameId == fid) with
  | some f => f
  | none => ⟨fid, []⟩

/-- The source's `sorted(grouped_frames.keys())`: the distinct `expect_id`s in
ascending order. -/
def groupKeys (frames : List ExpectedFrame) : List ℕ :=
  List.insertionSort (· ≤ ·) (frames.map (·.expect_id)).dedup

/-- One `FrameResult` entry of the validation report. -/
structure FrameResult where
  frameId : ℤ
  expect_id : ℕ
  offset_frame : ℤ
  matched : Bool
  details : List MatchDetail
  deriving DecidableEq

/-- The `ValidationReport` dict returned by `validate_video`. -/
structure ValidationReport where
  video_name : String
  test_case_id : String
  test_case_description : String
  expected_status : String
  total_frames : ℕ
  matched_frames : ℕ
  accuracy : Option ℚ
  detect_result : String
  validation_note : String
  frame_results : List FrameResult
  deriving DecidableEq

/-- The per-group loop body of `validate_video`: find the group's anchor
from its first frame, then compare every frame of the group at
`anchor + offset_frame` against the (possibly defaulted) actual frame. -/
def processGroup (θ : ℚ) (actual_results : List ActualFrame) (expect_id : ℕ)
    (group_frames : List ExpectedFrame) : List FrameResult :=
  let first_detection_frame :=
    match group_frames with
    | [] => 0
    | first :: _ => find_first_detection_frame_with_iou θ actual_results first
  group_frames.map fun exp_frame =>
    let absolute_frame_id := first_detection_frame + exp_frame.offset_frame
    let act_frame := lookupFrame actual_results absolute_frame_id
    let m := match_frame θ ⟨absolute_frame_id, exp_frame.detectedAreas⟩ act_frame
    (⟨absolute_frame_id, expect_id, exp_frame.offset_frame, m.1, m.2⟩ : FrameResult)

/-- Case 1 of `validate_video` (`expected_status.lower() == 'reject'`). -/
def validate_reject (expected_data : Expectation) (actual_results : List ActualFrame) :
    ValidationReport :=
  ⟨expected_data.video_name, expected_data.test_case_id,
   expected_data.test_case_description, expected_data.expected_status,
   0, 0, none,
   if 0 < actual_results.length then "FAILED" else "PASSED",
   if 0 < actual_results.length then
     "Model detects violation when uploading a NO violation video"
   else "",
   []⟩

/-- Case 2 of `validate_video` (every non-Reject status): empty actual
results short-circuit, otherwise group, anchor, align, match, score. -/
def validate_approve (θ : ℚ) (expected_data : Expectation)
    (actual_results : List ActualFrame) : ValidationReport :=
  if actual_results = [] then
    ⟨expected_data.video_name, expected_data.test_case_id,
     expected_data.test_case_description, expected_data.expected_status,
     expected_data.expected_frames.length, 0, some 0, "FAILED",
     "Model detects NO violation when uploading a violation video", []⟩
  else
    let all_frame_results := (groupKeys expected_data.expected_frames).flatMap fun k =>
      processGroup θ actual_results k (expected_data.expected_frames.filter (·.expect_id == k))
    let total_matched := all_frame_results.countP (·.matched)
    let total_frames := expected_data.expected_frames.length
    let accuracy : ℚ := if 0 < total_frames then (total_matched : ℚ) / (total_frames : ℚ) * 100 else 0
    ⟨expected_data.video_name, expected_data.test_case_id,
     expected_data.test_case_description, expected_data.expected_status,
     total_frames, total_matched, some (round2 accuracy),
     if 50 < accuracy then "PASSED" else "FAILED",
     "Model detects violation but wrong bounding box (" ++ toString total_matched ++ "/" ++
       toString total_frames ++ " frames matched)",
     all_frame_results⟩

/-- Python `str.lower()`: character-wise lowering (identical to the
source's behaviour on the ASCII status labels that occur). -/
def pyLower (s : String) : String :=
  ⟨s.data.map Char.toLower⟩

/-- Source `ResultValidator.validate_video`, dispatching on the lowercased
expected status. -/
def validate_video (θ : ℚ) (expected_data : Expectation)
    (actual_results : List ActualFrame) : ValidationReport :=
  if pyLower expected_data.expected_status = "reject" then
    validate_reject expected_data actual_results
  else
    validate_approve θ expected_data actual_results

/-! ### General helper lemmas -/

theorem pyLower_Reject : pyLower "Reject" = "reject" := by
  with_unfolding_all decide

theorem pyLower_REJECT : pyLower "REJECT" = "reject" := by
  with_unfolding_all decide

theorem pyLower_reject : pyLower "reject" = "reject" := by
  with_unfolding_all decide

theorem pyLower_Approve : pyLower "Approve" = "approve" := by
  with_unfolding_all decide

theorem pyLower_empty : pyLower "" = "" := by
  with_unfolding_all decide

theorem validate_video_of_reject (θ : ℚ) (e : Expectation) (a : List ActualFrame)
    (h : pyLower e.expected_status = "reject") :
    validate_video θ e a = validate_reject e a := by
  simp [validate_video, h]

theorem validate_video_of_not_reject (θ : ℚ) (e : Expectation) (a : List ActualFrame)
    (h : pyLower e.expected_status ≠ "reject") :
    validate_video θ e a = validate_approve θ e a := by
  simp [validate_video, h]

/-! ### C1: Reject short-circuit -/

/-- C1: for an Expectation whose `expected_status` is `"Reject"`,
`validate_video` attempts no frame alignment (`frame_results = []`) and
returns `detect_result = "PASSED"` iff the actual result list is empty;
if any actual frame exists it returns `"FAILED"` with `accuracy = none`
and `total_frames = 0`, regardless of the frames' content. -/
theorem C1_reject_short_circuit (θ : ℚ) (e : Expectation) (a : List ActualFrame)
    (h : e.expected_status = "Reject") :
    ((validate_video θ e a).detect_result = "PASSED" ↔ a = []) ∧
    (a ≠ [] → (validate_video θ e a).detect_result = "FAILED" ∧
      (validate_video θ e a).accuracy = none ∧ (validate_video θ e a).total_frames = 0) ∧
    (validate_video θ e a).frame_results = [] := by
  have hd : validate_video θ e a = validate_reject e a :=
    validate_video_of_reject θ e a (by rw [h]; exact pyLower_Reject)
  rw [hd]
  unfold validate_reject
  refine ⟨?_, fun ha => ⟨?_, rfl, rfl⟩, rfl⟩
  · cases a with
    | nil => simp
    | cons f t =>
      simp only [List.length_cons]
      constructor
      · intro hpf
        rw [if_pos (Nat.succ_pos _)] at hpf
        exact absurd hpf (by decide)
      · intro hc
        exact absurd hc (by simp)
  · cases a with
    | nil => exact absurd rfl ha
    | cons f t => simp

/-- C1 witness: a Reject case with one (empty) actual frame fails with
null accuracy, zero total frames and no frame results. -/
theorem C1_reject_short_circuit_witness :
    (("w" : String) = "w" ∧ ([⟨3, []⟩] : List ActualFrame) ≠ []) ∧
    ((validate_video (1 / 2) ⟨"v", "t", "d", "Reject", []⟩ [⟨3, []⟩]).detect_result = "FAILED" ∧
      (validate_video (1 / 2) ⟨"v", "t", "d", "Reject", []⟩ [⟨3, []⟩]).accuracy = none ∧
      (validate_video (1 / 2) ⟨"v", "t", "d", "Reject", []⟩ [⟨3, []⟩]).total_frames = 0) :=
  ⟨⟨rfl, by simp⟩,
    (C1_reject_short_circuit (1 / 2) ⟨"v", "t", "d", "Reject", []⟩ [⟨3, []⟩] rfl).2.1 (by simp)⟩

/-! ### C10: case-insensitive, total status routing -/

/-- C10: `validate_video`'s status routing is case-insensitive and total:
the Reject branch is taken iff the lowercased `expected_status` equals
`"reject"` (observably, the returned accuracy is `null` exactly then),
and every other status value — the empty string included — is processed
through the Approve path. -/
theorem C10_status_routing (θ : ℚ) (e : Expectation) (a : List ActualFrame) :
    ((validate_video θ e a).accuracy = none ↔ pyLower e.expected_status = "reject") ∧
    (pyLower e.expected_status = "reject" → validate_video θ e a = validate_reject e a) ∧
    (pyLower e.expected_status ≠ "reject" → validate_video θ e a = validate_approve θ e a) := by
  by_cases h : pyLower e.expected_status = "reject"
  · refine ⟨?_, fun _ => validate_video_of_reject θ e a h, fun hn => absurd h hn⟩
    rw [validate_video_of_reject θ e a h]
    simp [validate_reject, h]
  · refine ⟨?_, fun hr => absurd hr h, fun _ => validate_video_of_not_reject θ e a h⟩
    rw [validate_video_of_not_reject θ e a h]
    unfold validate_approve
    by_cases ha : a = [] <;> simp [ha, h]

/-- C10 witness: `"REJECT"` routes to the Reject branch exactly like
`"reject"`, and the empty status string routes to the Approve path. -/
theorem C10_status_routing_witness :
    validate_video (1 / 2) ⟨"v", "t", "d", "REJECT", []⟩ [] =
      validate_reject ⟨"v", "t", "d", "REJECT", []⟩ [] ∧
    validate_video (1 / 2) ⟨"v", "t", "d", "", []⟩ [] =
      validate_approve (1 / 2) ⟨"v", "t", "d", "", []⟩ [] :=
  ⟨(C10_status_routing (1 / 2) ⟨"v", "t", "d", "REJECT", []⟩ []).2.1 pyLower_REJECT,
    (C10_status_routing (1 / 2) ⟨"v", "t", "d", "", []⟩ []).2.2
      (by rw [pyLower_empty]; decide)⟩

/-! ### C8: the known-overlap IoU value (rounded by the source) -/

/-- C8 counterexample: on the boxes `{0,0,10,10}` and `{5,5,10,10}` the
source's `calculate_iou` returns `round(25/175, 2) = 0.14`, which is not
the exact `25/175` the claim states. -/
theorem C8_known_overlap_cex :
    calculate_iou ⟨0, 0, 10, 10⟩ ⟨5, 5, 10, 10⟩ = 7 / 50 ∧ (7 / 50 : ℚ) ≠ 25 / 175 :=
  ⟨by with_unfolding_all decide, by norm_num⟩

/-- C8 (amended): `calculate_iou` on the boxes `{0,0,10,10}` and
`{5,5,10,10}` returns `25/175` rounded to two decimal places, i.e.
`0.14`. -/
theorem C8_known_overlap_rounded :
    calculate_iou ⟨0, 0, 10, 10⟩ ⟨5, 5, 10, 10⟩ = round2 (25 / 175) := by
  with_unfolding_all decide

/-! ### C4: time-to-frame conversion truncates toward zero -/

/-- C4 counterexample: with the source's builder (24 fps, ratio 2.5),
an event time one second before the reference gives offset
`int(-9.6) = -9`, while the claimed `floor(-9.6)` is `-10`. -/
theorem C4_time_to_frame_cex :
    defaultBuilder.calculate_relative_frame_offset (some ⟨0, 0⟩) (some ⟨0, 1⟩) = -9 ∧
    ⌊(time_to_seconds (some ⟨0, 0⟩) - time_to_seconds (some ⟨0, 1⟩)) *
        defaultBuilder.frame_rate⌋ = -10 ∧
    (-9 : ℤ) ≠ -10 :=
  ⟨by with_unfolding_all decide, by with_unfolding_all decide, by decide⟩

/-- C4 (amended): the builder's time-to-frame conversion returns
`(seconds(t_event) - seconds(t_reference)) * frame_rate` truncated toward
zero (Python `int()`), with `frame_rate = fps / compression_ratio`; this
coincides with the floor exactly when the elapsed quantity is
non-negative, and rounds toward zero — not down — when it is negative. -/
theorem C4_time_to_frame_trunc (b : ExpectedResultBuilder) (t tref : Option TimeMark) :
    b.calculate_relative_frame_offset t tref =
      pyTrunc ((time_to_seconds t - time_to_seconds tref) * b.frame_rate) ∧
    b.frame_rate = b.fps / b.compression_ratio ∧
    (0 ≤ (time_to_seconds t - time_to_seconds tref) * b.frame_rate →
      b.calculate_relative_frame_offset t tref =
        ⌊(time_to_seconds t - time_to_seconds tref) * b.frame_rate⌋) := by
  refine ⟨rfl, rfl, fun h0 => ?_⟩
  unfold ExpectedResultBuilder.calculate_relative_frame_offset pyTrunc
  rw [if_neg (not_lt.mpr h0)]

/-- C4 witness: nine seconds after the reference at rate 9.6 the offset
is `int(86.4) = 86 = floor(86.4)`. -/
theorem C4_time_to_frame_trunc_witness :
    (0 : ℚ) ≤ (time_to_seconds (some ⟨0, 9⟩) - time_to_seconds (some ⟨0, 0⟩)) *
      defaultBuilder.frame_rate ∧
    defaultBuilder.calculate_relative_frame_offset (some ⟨0, 9⟩) (some ⟨0, 0⟩) =
      ⌊(time_to_seconds (some ⟨0, 9⟩) - time_to_seconds (some ⟨0, 0⟩)) *
        defaultBuilder.frame_rate⌋ :=
  ⟨by with_unfolding_all decide,
    (C4_time_to_frame_trunc defaultBuilder (some ⟨0, 9⟩) (some ⟨0, 0⟩)).2.2
      (by with_unfolding_all decide)⟩

/-! ### C2: aggregate scoring on the Approve path -/

/-- C2 (amended): on the Approve path with non-empty actual results,
`total_frames` is the number of expected frames across all groups,
`matched_frames` is the count of matched frame results, the reported
`accuracy` is `matched_frames/total_frames*100` (0 when `total_frames`
is 0) **rounded to two decimal places**, and `detect_result` is
`"PASSED"` iff the unrounded ratio strictly exceeds 50.0. -/
theorem C2_aggregate_scoring (θ : ℚ) (e : Expectation) (a : List ActualFrame)
    (hs : pyLower e.expected_status ≠ "reject") (ha : a ≠ []) :
    (validate_video θ e a).total_frames = e.expected_frames.length ∧
    (validate_video θ e a).matched_frames =
      (validate_video θ e a).frame_results.countP (·.matched) ∧
    (validate_video θ e a).accuracy = some (round2 (if e.expected_frames.length = 0 then 0
      else ((validate_video θ e a).matched_frames : ℚ) / (e.expected_frames.length : ℚ) * 100)) ∧
    ((validate_video θ e a).detect_result = "PASSED" ↔
      50 < (if e.expected_frames.length = 0 then (0 : ℚ)
        else ((validate_video θ e a).matched_frames : ℚ) / (e.expected_frames.length : ℚ) * 100)) := by
  rw [validate_video_of_not_reject θ e a hs]
  unfold validate_approve
  rw [if_neg ha]
  by_cases hl : e.expected_frames.length = 0 <;>
    by_cases hacc : (50 : ℚ) < (if 0 < e.expected_frames.length then
      (((groupKeys e.expected_frames).flatMap fun k =>
        processGroup θ a k (e.expected_frames.filter (·.expect_id == k))).countP (·.matched) : ℚ) /
        (e.expected_frames.length : ℚ) * 100 else 0) <;>
    simp_all [Nat.pos_iff_ne_zero]

set_option maxHeartbeats 2000000 in
/-- C2 counterexample: an Approve case with 1 of 3 frames matched
reports `accuracy = 33.33` (the two-decimal rounding), not the exact
`1/3 * 100` the claim states for the returned report. -/
theorem C2_aggregate_scoring_cex :
    (validate_video (1 / 2)
        ⟨"v", "tc", "d", "Approve",
          [⟨0, 0, 0, [⟨"R", ⟨0, 0, 10, 10⟩⟩]⟩, ⟨1, 1, 0, [⟨"R", ⟨0, 0, 10, 10⟩⟩]⟩,
            ⟨2, 2, 0, [⟨"R", ⟨0, 0, 10, 10⟩⟩]⟩]⟩
        [⟨5, [⟨"R", ⟨0, 0, 10, 10⟩⟩]⟩]).matched_frames = 1 ∧
    (validate_video (1 / 2)
        ⟨"v", "tc", "d", "Approve",
          [⟨0, 0, 0, [⟨"R", ⟨0, 0, 10, 10⟩⟩]⟩, ⟨1, 1, 0, [⟨"R", ⟨0, 0, 10, 10⟩⟩]⟩,
            ⟨2, 2, 0, [⟨"R", ⟨0, 0, 10, 10⟩⟩]⟩]⟩
        [⟨5, [⟨"R", ⟨0, 0, 10, 10⟩⟩]⟩]).total_frames = 3 ∧
    (validate_video (1 / 2)
        ⟨"v", "tc", "d", "Approve",
          [⟨0, 0, 0, [⟨"R", ⟨0, 0, 10, 10⟩⟩]⟩, ⟨1, 1, 0, [⟨"R", ⟨0, 0, 10, 10⟩⟩]⟩,
            ⟨2, 2, 0, [⟨"R", ⟨0, 0, 10, 10⟩⟩]⟩]⟩
        [⟨5, [⟨"R", ⟨0, 0, 10, 10⟩⟩]⟩]).accuracy = some (3333 / 100) ∧
    (3333 / 100 : ℚ) ≠ (1 : ℚ) / 3 * 100 := by
  refine ⟨?_, ?_, ?_, by norm_num⟩ <;>
    · norm_num [validate_video, validate_approve, validate_reject, pyLower_Approve, groupKeys,
        processGroup, find_first_detection_frame_with_iou, findFirstAux, frameHasMatch,
        match_frame, bestMatchFold, bestUpdate, lookupFrame, calculate_iou, pyMax, pyMin, round2, pyRoundInt,
        List.insertionSort, List.orderedInsert]
      rfl

set_option maxHeartbeats 4000000 in
/-- C2 witness: the majority-rule boundary — exactly 2 of 4 frames
matched gives the ratio 50, which is not strictly above 50, so the case
is not "PASSED". -/
theorem C2_aggregate_scoring_witness :
    pyLower "Approve" ≠ "reject" ∧
    ([⟨5, [⟨"R", ⟨0, 0, 10, 10⟩⟩]⟩, ⟨6, [⟨"R", ⟨0, 0, 10, 10⟩⟩]⟩] : List ActualFrame) ≠ [] ∧
    (validate_video (1 / 2)
        ⟨"v", "tc", "d", "Approve",
          [⟨0, 0, 0, [⟨"R", ⟨0, 0, 10, 10⟩⟩]⟩, ⟨1, 1, 0, [⟨"R", ⟨0, 0, 10, 10⟩⟩]⟩,
            ⟨2, 2, 0, [⟨"R", ⟨0, 0, 10, 10⟩⟩]⟩, ⟨3, 3, 0, [⟨"R", ⟨0, 0, 10, 10⟩⟩]⟩]⟩
        [⟨5, [⟨"R", ⟨0, 0, 10, 10⟩⟩]⟩, ⟨6, [⟨"R", ⟨0, 0, 10, 10⟩⟩]⟩]).matched_frames = 2 ∧
    ¬((validate_video (1 / 2)
        ⟨"v", "tc", "d", "Approve",
          [⟨0, 0, 0, [⟨"R", ⟨0, 0, 10, 10⟩⟩]⟩, ⟨1, 1, 0, [⟨"R", ⟨0, 0, 10, 10⟩⟩]⟩,
            ⟨2, 2, 0, [⟨"R", ⟨0, 0, 10, 10⟩⟩]⟩, ⟨3, 3, 0, [⟨"R", ⟨0, 0, 10, 10⟩⟩]⟩]⟩
        [⟨5, [⟨"R", ⟨0, 0, 10, 10⟩⟩]⟩, ⟨6, [⟨"R", ⟨0, 0, 10, 10⟩⟩]⟩]).detect_result = "PASSED") := by
  refine ⟨by rw [pyLower_Approve]; decide, by simp, ?_, ?_⟩
  · norm_num [validate_video, validate_approve, validate_reject, pyLower_Approve, groupKeys,
      processGroup, find_first_detection_frame_with_iou, findFirstAux, frameHasMatch,
      match_frame, bestMatchFold, bestUpdate, lookupFrame, calculate_iou, pyMax, pyMin, round2, pyRoundInt,
      List.insertionSort, List.orderedInsert]
    rfl
  · intro hp
    have h := (C2_aggregate_scoring (1 / 2)
      ⟨"v", "tc", "d", "Approve",
        [⟨0, 0, 0, [⟨"R", ⟨0, 0, 10, 10⟩⟩]⟩, ⟨1, 1, 0, [⟨"R", ⟨0, 0, 10, 10⟩⟩]⟩,
          ⟨2, 2, 0, [⟨"R", ⟨0, 0, 10, 10⟩⟩]⟩, ⟨3, 3, 0, [⟨"R", ⟨0, 0, 10, 10⟩⟩]⟩]⟩
      [⟨5, [⟨"R", ⟨0, 0, 10, 10⟩⟩]⟩, ⟨6, [⟨"R", ⟨0, 0, 10, 10⟩⟩]⟩]
      (by rw [pyLower_Approve]; decide) (by simp)).2.2.2
    rw [h] at hp
    have hm : (validate_video (1 / 2)
        ⟨"v", "tc", "d", "Approve",
          [⟨0, 0, 0, [⟨"R", ⟨0, 0, 10, 10⟩⟩]⟩, ⟨1, 1, 0, [⟨"R", ⟨0, 0, 10, 10⟩⟩]⟩,
            ⟨2, 2, 0, [⟨"R", ⟨0, 0, 10, 10⟩⟩]⟩, ⟨3, 3, 0, [⟨"R", ⟨0, 0, 10, 10⟩⟩]⟩]⟩
        [⟨5, [⟨"R", ⟨0, 0, 10, 10⟩⟩]⟩, ⟨6, [⟨"R", ⟨0, 0, 10, 10⟩⟩]⟩]).matched_frames = 2 := by
      norm_num [validate_video, validate_approve, validate_reject, pyLower_Approve, groupKeys,
        processGroup, find_first_detection_frame_with_iou, findFirstAux, frameHasMatch,
        match_frame, bestMatchFold, bestUpdate, lookupFrame, calculate_iou, pyMax, pyMin, round2, pyRoundInt,
        List.insertionSort, List.orderedInsert]
      rfl
    rw [hm] at hp
    norm_num at hp

/-! ### C5: per-frame matching semantics -/

theorem le_foldl_max (l : List ℚ) (b : ℚ) : b ≤ l.foldl max b := by
  induction l generalizing b with
  | nil => exact le_refl b
  | cons x t ih => exact le_trans (le_max_left b x) (ih (max b x))

theorem foldl_bestUpdate_filter (e : DetectedArea) (aas : List DetectedArea)
    (acc : Option DetectedArea × ℚ) :
    aas.foldl (bestUpdate e) acc =
      (aas.filter fun aa => e.ruleCode == aa.ruleCode).foldl (bestUpdate e) acc := by
  induction aas generalizing acc with
  | nil => rfl
  | cons aa t ih =>
    by_cases h : e.ruleCode = aa.ruleCode
    · rw [List.foldl_cons, List.filter_cons_of_pos (by simp [h]), List.foldl_cons, ih]
    · rw [List.foldl_cons, List.filter_cons_of_neg (by simp [h]), bestUpdate, if_neg h, ih]

theorem foldl_bestUpdate_snd (e : DetectedArea) (cands : List DetectedArea)
    (hr : ∀ aa ∈ cands, e.ruleCode = aa.ruleCode) (o : Option DetectedArea) (m : ℚ) :
    (cands.foldl (bestUpdate e) (o, m)).2 =
      ((cands.map fun aa => calculate_iou e.boundingBox aa.boundingBox).foldl max m) := by
  induction cands generalizing o m with
  | nil => rfl
  | cons aa t ih =>
    have haa : e.ruleCode = aa.ruleCode := hr aa (List.mem_cons_self aa t)
    have ht : ∀ x ∈ t, e.ruleCode = x.ruleCode := fun x hx => hr x (List.mem_cons_of_mem aa hx)
    rw [List.foldl_cons, List.map_cons, List.foldl_cons, bestUpdate, if_pos haa]
    by_cases hlt : m < calculate_iou e.boundingBox aa.boundingBox
    · rw [if_pos hlt, ih ht, max_eq_right (le_of_lt hlt)]
    · rw [if_neg hlt, ih ht, max_eq_left (le_of_not_lt hlt)]

theorem foldl_bestUpdate_fst (e : DetectedArea) (cands : List DetectedArea)
    (hr : ∀ aa ∈ cands, e.ruleCode = aa.ruleCode) (o : Option DetectedArea) (m : ℚ) :
    (cands.foldl (bestUpdate e) (o, m)).1 =
      if m < (cands.map fun aa => calculate_iou e.boundingBox aa.boundingBox).foldl max m then
        cands.find? fun aa =>
          calculate_iou e.boundingBox aa.boundingBox ==
            (cands.map fun aa => calculate_iou e.boundingBox aa.boundingBox).foldl max m
      else o := by
  induction cands generalizing o m with
  | nil => simp
  | cons aa t ih =>
    have haa : e.ruleCode = aa.ruleCode := hr aa (List.mem_cons_self aa t)
    have ht : ∀ x ∈ t, e.ruleCode = x.ruleCode := fun x hx => hr x (List.mem_cons_of_mem aa hx)
    rw [List.foldl_cons, List.map_cons, List.foldl_cons, bestUpdate, if_pos haa]
    by_cases hlt : m < calculate_iou e.boundingBox aa.boundingBox
    · rw [if_pos hlt, ih ht, max_eq_right (le_of_lt hlt)]
      have hiM : calculate_iou e.boundingBox aa.boundingBox ≤
          ((t.map fun aa => calculate_iou e.boundingBox aa.boundingBox).foldl max
            (calculate_iou e.boundingBox aa.boundingBox)) :=
        le_foldl_max _ _
      rw [if_pos (lt_of_lt_of_le hlt hiM)]
      by_cases hieq : calculate_iou e.boundingBox aa.boundingBox =
          ((t.map fun aa => calculate_iou e.boundingBox aa.boundingBox).foldl max
            (calculate_iou e.boundingBox aa.boundingBox))
      · rw [if_neg (not_lt.mpr hieq.ge)]
        refine (List.find?_cons_of_pos t ?_).symm
        exact beq_iff_eq.mpr hieq
      · rw [if_pos (lt_of_le_of_ne hiM hieq)]
        exact (List.find?_cons_of_neg t (by simpa using hieq)).symm
    · rw [if_neg hlt, ih ht, max_eq_left (le_of_not_lt hlt)]
      by_cases hmM : m < ((t.map fun aa => calculate_iou e.boundingBox aa.boundingBox).foldl max m)
      · have hne : calculate_iou e.boundingBox aa.boundingBox ≠
            ((t.map fun aa => calculate_iou e.boundingBox aa.boundingBox).foldl max m) :=
          ne_of_lt (lt_of_le_of_lt (le_of_not_lt hlt) hmM)
        rw [if_pos hmM, if_pos hmM]
        exact (List.find?_cons_of_neg t (by simpa using hne)).symm
      · rw [if_neg hmM, if_neg hmM]

theorem bestMatchFold_snd (e : DetectedArea) (aas : List DetectedArea) :
    (bestMatchFold e aas).2 =
      ((aas.filter fun aa => e.ruleCode == aa.ruleCode).map
        fun aa => calculate_iou e.boundingBox aa.boundingBox).foldl max 0 := by
  rw [bestMatchFold, foldl_bestUpdate_filter]
  exact foldl_bestUpdate_snd e _ (fun aa ha => by simpa using List.of_mem_filter ha) none 0

theorem bestMatchFold_fst (e : DetectedArea) (aas : List DetectedArea) :
    (bestMatchFold e aas).1 =
      if 0 < ((aas.filter fun aa => e.ruleCode == aa.ruleCode).map
          fun aa => calculate_iou e.boundingBox aa.boundingBox).foldl max 0 then
        (aas.filter fun aa => e.ruleCode == aa.ruleCode).find? fun aa =>
          calculate_iou e.boundingBox aa.boundingBox ==
            ((aas.filter fun aa => e.ruleCode == aa.ruleCode).map
              fun aa => calculate_iou e.boundingBox aa.boundingBox).foldl max 0
      else none := by
  rw [bestMatchFold, foldl_bestUpdate_filter]
  exact foldl_bestUpdate_fst e _ (fun aa ha => by simpa using List.of_mem_filter ha) none 0

/-- C5: in `match_frame`, for each expected area the best actual area is
chosen among equal-rule-code candidates by strictly greatest IoU (the
first-seen candidate wins ties, since the comparison is strict `>`, and
no candidate is selected when the best IoU is 0); the area is matched
iff that best IoU reaches the threshold; the frame is matched iff all
its expected areas matched; and a frame with zero expected areas is
matched iff the actual frame also has zero detected areas. -/
theorem C5_match_frame_semantics (θ : ℚ) (ef af : ActualFrame) :
    (ef.detectedAreas = [] →
      (match_frame θ ef af).2 = [] ∧
      ((match_frame θ ef af).1 = true ↔ af.detectedAreas = [])) ∧
    (ef.detectedAreas ≠ [] →
      (match_frame θ ef af).2.map MatchDetail.expected = ef.detectedAreas ∧
      ((match_frame θ ef af).1 = true ↔ ∀ d ∈ (match_frame θ ef af).2, d.matched = true) ∧
      ∀ d ∈ (match_frame θ ef af).2,
        d.iou = ((af.detectedAreas.filter fun aa => d.expected.ruleCode == aa.ruleCode).map
            fun aa => calculate_iou d.expected.boundingBox aa.boundingBox).foldl max 0 ∧
        (d.matched = true ↔ θ ≤ d.iou) ∧
        d.actual = (if 0 < d.iou then
            (af.detectedAreas.filter fun aa => d.expected.ruleCode == aa.ruleCode).find? fun aa =>
              calculate_iou d.expected.boundingBox aa.boundingBox == d.iou
          else none)) := by
  constructor
  · intro h
    rw [match_frame, if_pos h]
    exact ⟨rfl, by simp⟩
  · intro h
    rw [match_frame, if_neg h]
    refine ⟨by simp [Function.comp_def], ?_, ?_⟩
    · have hlen : (ef.detectedAreas.map fun exp_area =>
          (⟨exp_area, (bestMatchFold exp_area af.detectedAreas).1,
            (bestMatchFold exp_area af.detectedAreas).2,
            decide (θ ≤ (bestMatchFold exp_area af.detectedAreas).2)⟩ : MatchDetail)).length =
          ef.detectedAreas.length := by simp
      simp only [beq_iff_eq, ← hlen]
      exact List.countP_eq_length
    · intro d hd
      obtain ⟨exp, hexp, rfl⟩ := List.mem_map.mp hd
      dsimp only
      refine ⟨bestMatchFold_snd exp af.detectedAreas, by simp, ?_⟩
      rw [bestMatchFold_snd exp af.detectedAreas]
      exact bestMatchFold_fst exp af.detectedAreas

/-- C5 witness: a frame with one expected area and two tying actual
candidates (both IoU 0.5 against the expectation); the frame-match flag
agrees with all-details-matched as the theorem states. -/
theorem C5_match_frame_semantics_witness :
    (([⟨"R", ⟨0, 0, 10, 10⟩⟩] : List DetectedArea) ≠ []) ∧
    ((match_frame (1 / 2) ⟨0, [⟨"R", ⟨0, 0, 10, 10⟩⟩]⟩
        ⟨7, [⟨"R", ⟨0, 0, 10, 5⟩⟩, ⟨"R", ⟨0, 5, 10, 5⟩⟩]⟩).1 = true ↔
      ∀ d ∈ (match_frame (1 / 2) ⟨0, [⟨"R", ⟨0, 0, 10, 10⟩⟩]⟩
        ⟨7, [⟨"R", ⟨0, 0, 10, 5⟩⟩, ⟨"R", ⟨0, 5, 10, 5⟩⟩]⟩).2, d.matched = true) :=
  ⟨by simp,
    ((C5_match_frame_semantics (1 / 2) ⟨0, [⟨"R", ⟨0, 0, 10, 10⟩⟩]⟩
      ⟨7, [⟨"R", ⟨0, 0, 10, 5⟩⟩, ⟨"R", ⟨0, 5, 10, 5⟩⟩]⟩).2 (by simp)).2.1⟩

/-! ### C6: three sampled frames per detection event -/

theorem eventFrames_expect_id (b : ExpectedResultBuilder) (est : Option TimeMark)
    (rc : String) (j : ℕ) (ev : DetectionEvent) :
    ∀ f ∈ eventFrames b est rc j ev, f.expect_id = j := by
  intro f hf
  by_cases hc : ev.eventStart = none ∨ ev.eventEnd = none ∨ ev.area = []
  · rw [eventFrames, if_pos hc] at hf
    cases hf
  · rw [eventFrames, if_neg hc] at hf
    simp only [List.mem_cons, List.mem_singleton, List.not_mem_nil, or_false] at hf
    rcases hf with h | h | h <;> subst h <;> rfl

theorem mem_flatMap_enumFrom_ge (b : ExpectedResultBuilder) (est : Option TimeMark)
    (rc : String) (evs : List DetectionEvent) (n : ℕ) :
    ∀ f ∈ ((List.enumFrom n evs).flatMap fun p => eventFrames b est rc p.1 p.2),
      n ≤ f.expect_id := by
  induction evs generalizing n with
  | nil => intro f hf; cases hf
  | cons ev t ih =>
    intro f hf
    rw [show List.enumFrom n (ev :: t) = (n, ev) :: List.enumFrom (n + 1) t from rfl,
      List.flatMap_cons] at hf
    rcases List.mem_append.mp hf with h | h
    · exact le_of_eq (eventFrames_expect_id b est rc n ev f h).symm
    · exact le_trans (Nat.le_succ n) (ih (n + 1) f h)

theorem flatMap_enumFrom_filter (b : ExpectedResultBuilder) (est : Option TimeMark)
    (rc : String) (evs : List DetectionEvent) (n i : ℕ) (hi : i < evs.length) :
    ((List.enumFrom n evs).flatMap fun p => eventFrames b est rc p.1 p.2).filter
        (fun f => f.expect_id == n + i) =
      eventFrames b est rc (n + i) (evs.get ⟨i, hi⟩) := by
  induction evs generalizing n i with
  | nil => cases Nat.not_lt_zero i hi
  | cons ev t ih =>
    rw [show List.enumFrom n (ev :: t) = (n, ev) :: List.enumFrom (n + 1) t from rfl,
      List.flatMap_cons, List.filter_append]
    cases i with
    | zero =>
      have h1 : (eventFrames b est rc n ev).filter (fun f => f.expect_id == n + 0) =
          eventFrames b est rc n ev := by
        rw [List.filter_eq_self]
        intro f hf
        simp [eventFrames_expect_id b est rc n ev f hf]
      have h2 : (((List.enumFrom (n + 1) t).flatMap
          fun p => eventFrames b est rc p.1 p.2).filter (fun f => f.expect_id == n + 0)) = [] := by
        rw [List.filter_eq_nil_iff]
        intro f hf
        have := mem_flatMap_enumFrom_ge b est rc t (n + 1) f hf
        simp only [beq_iff_eq]
        omega
      rw [h1, h2, List.append_nil, Nat.add_zero]
      rfl
    | succ j =>
      have h1 : (eventFrames b est rc n ev).filter (fun f => f.expect_id == n + (j + 1)) = [] := by
        rw [List.filter_eq_nil_iff]
        intro f hf
        have := eventFrames_expect_id b est rc n ev f hf
        simp only [beq_iff_eq]
        omega
      have hj : j < t.length := by simpa using Nat.lt_of_succ_lt_succ hi
      have h2 := ih (n + 1) j hj
      rw [h1, List.nil_append, show n + (j + 1) = n + 1 + j by omega, h2]
      rfl

theorem fdiv_two_eq_floor (x : ℤ) : Int.fdiv x 2 = ⌊((x : ℚ)) / 2⌋ := by
  rw [show ((2 : ℚ)) = ((2 : ℕ) : ℚ) by norm_num, Rat.floor_intCast_div_natCast,
    Int.fdiv_eq_ediv _ (by norm_num)]
  rfl

/-- C6: every well-formed ground-truth detection event (index `i` in the
row's event list, with non-empty start, end and area fields) contributes
exactly three ExpectedFrames to `build_expected_frames` — one at the
event start, one at the integer-floor midpoint of the start and end
offsets, and one at the event end (both the time-relative `frameId` and
the event-relative `offset_frame` follow that pattern) — each tagged
with `expect_id = i`. -/
theorem C6_three_frames_per_event (b : ExpectedResultBuilder) (evs : List DetectionEvent)
    (est eet : Option TimeMark) (rc : String) (i : ℕ) (hi : i < evs.length)
    (h1 : (evs.get ⟨i, hi⟩).eventStart ≠ none) (h2 : (evs.get ⟨i, hi⟩).eventEnd ≠ none)
    (h3 : (evs.get ⟨i, hi⟩).area ≠ []) :
    List.Perm
      ((build_expected_frames b evs est eet rc).filter fun f => f.expect_id == i)
      [⟨b.calculate_relative_frame_offset (evs.get ⟨i, hi⟩).eventStart est,
        b.calculate_relative_frame_offset (evs.get ⟨i, hi⟩).eventStart (evs.get ⟨i, hi⟩).eventStart,
        i, [⟨rc, area_to_bounding_box (evs.get ⟨i, hi⟩).area⟩]⟩,
       ⟨⌊((b.calculate_relative_frame_offset (evs.get ⟨i, hi⟩).eventStart est +
            b.calculate_relative_frame_offset (evs.get ⟨i, hi⟩).eventEnd est : ℤ) : ℚ) / 2⌋,
        ⌊((b.calculate_relative_frame_offset (evs.get ⟨i, hi⟩).eventStart (evs.get ⟨i, hi⟩).eventStart +
            b.calculate_relative_frame_offset (evs.get ⟨i, hi⟩).eventEnd (evs.get ⟨i, hi⟩).eventStart : ℤ) : ℚ) / 2⌋,
        i, [⟨rc, area_to_bounding_box (evs.get ⟨i, hi⟩).area⟩]⟩,
       ⟨b.calculate_relative_frame_offset (evs.get ⟨i, hi⟩).eventEnd est,
        b.calculate_relative_frame_offset (evs.get ⟨i, hi⟩).eventEnd (evs.get ⟨i, hi⟩).eventStart,
        i, [⟨rc, area_to_bounding_box (evs.get ⟨i, hi⟩).area⟩]⟩] := by
  have hne : evs ≠ [] := by
    intro h
    rw [h] at hi
    exact Nat.not_lt_zero i hi
  rw [build_expected_frames, if_neg hne]
  refine ((List.perm_insertionSort _ _).filter _).trans ?_
  have hkey : (fun f : ExpectedFrame => f.expect_id == i) =
      (fun f : ExpectedFrame => f.expect_id == 0 + i) := by
    funext f
    rw [Nat.zero_add]
  rw [show evs.enum = List.enumFrom 0 evs from rfl, hkey,
    flatMap_enumFrom_filter b est rc evs 0 i hi]
  rw [eventFrames, if_neg (by
    push_neg
    exact ⟨h1, h2, h3⟩)]
  rw [Nat.zero_add]
  simp only [← fdiv_two_eq_floor]
  exact List.Perm.refl _

/-- C6 witness: the first example event of the source's `__main__` block
(02:22–02:23 within a case starting 02:22) yields exactly its three
frames, tagged `expect_id = 0`. -/
theorem C6_three_frames_per_event_witness :
    List.Perm
      ((build_expected_frames defaultBuilder
          [⟨some ⟨2, 22⟩, some ⟨2, 23⟩, [156, 503, 331, 786]⟩]
          (some ⟨2, 22⟩) (some ⟨2, 25⟩) "PAR02").filter fun f => f.expect_id == 0)
      [⟨defaultBuilder.calculate_relative_frame_offset (some ⟨2, 22⟩) (some ⟨2, 22⟩),
        defaultBuilder.calculate_relative_frame_offset (some ⟨2, 22⟩) (some ⟨2, 22⟩),
        0, [⟨"PAR02", area_to_bounding_box [156, 503, 331, 786]⟩]⟩,
       ⟨⌊((defaultBuilder.calculate_relative_frame_offset (some ⟨2, 22⟩) (some ⟨2, 22⟩) +
            defaultBuilder.calculate_relative_frame_offset (some ⟨2, 23⟩) (some ⟨2, 22⟩) : ℤ) : ℚ) / 2⌋,
        ⌊((defaultBuilder.calculate_relative_frame_offset (some ⟨2, 22⟩) (some ⟨2, 22⟩) +
            defaultBuilder.calculate_relative_frame_offset (some ⟨2, 23⟩) (some ⟨2, 22⟩) : ℤ) : ℚ) / 2⌋,
        0, [⟨"PAR02", area_to_bounding_box [156, 503, 331, 786]⟩]⟩,
       ⟨defaultBuilder.calculate_relative_frame_offset (some ⟨2, 23⟩) (some ⟨2, 22⟩),
        defaultBuilder.calculate_relative_frame_offset (some ⟨2, 23⟩) (some ⟨2, 22⟩),
        0, [⟨"PAR02", area_to_bounding_box [156, 503, 331, 786]⟩]⟩] :=
  C6_three_frames_per_event defaultBuilder
    [⟨some ⟨2, 22⟩, some ⟨2, 23⟩, [156, 503, 331, 786]⟩]
    (some ⟨2, 22⟩) (some ⟨2, 25⟩) "PAR02" 0 (by decide) (by simp) (by simp) (by simp)

/-! ### C3: anchor discovery and absolute frame resolution -/

theorem findFirstAux_eq_find? (θ : ℚ) (eas : List DetectedArea) (frames : List ActualFrame) :
    findFirstAux θ eas frames =
      match frames.find? (frameHasMatch θ eas) with
      | some fr => fr.frameId
      | none => 0 := by
  induction frames with
  | nil => rfl
  | cons fr t ih =>
    by_cases h : frameHasMatch θ eas fr
    · rw [findFirstAux, if_pos h, List.find?_cons_of_pos t h]
    · rw [findFirstAux, if_neg h, List.find?_cons_of_neg t (by simpa using h), ih]

theorem find_first_eq_find? (θ : ℚ) (frames : List ActualFrame) (eff : ExpectedFrame) :
    find_first_detection_frame_with_iou θ frames eff =
      match frames.find? (frameHasMatch θ eff.detectedAreas) with
      | some fr => fr.frameId
      | none => 0 := by
  rw [find_first_detection_frame_with_iou]
  by_cases h : eff.detectedAreas = []
  · rw [if_pos h]
    have hn : frames.find? (frameHasMatch θ eff.detectedAreas) = none := by
      rw [List.find?_eq_none]
      intro fr _
      simp [frameHasMatch, h]
    rw [hn]
  · rw [if_neg h]
    exact findFirstAux_eq_find? θ eff.detectedAreas frames

theorem frameHasMatch_swap (θ : ℚ) (eas : List DetectedArea) (fr : ActualFrame) :
    frameHasMatch θ eas fr =
      fr.detectedAreas.any fun aa => eas.any fun ea =>
        ea.ruleCode == aa.ruleCode &&
          decide (θ ≤ calculate_iou ea.boundingBox aa.boundingBox) := by
  rw [Bool.eq_iff_iff]
  simp only [frameHasMatch, List.any_eq_true, Bool.and_eq_true]
  constructor
  · rintro ⟨x, hx, y, hy, hxy⟩
    exact ⟨y, hy, x, hx, hxy⟩
  · rintro ⟨y, hy, x, hx, hxy⟩
    exact ⟨x, hx, y, hy, hxy⟩

theorem lookupFrame_eq_getD (a : List ActualFrame) (fid : ℤ) :
    lookupFrame a fid = (a.reverse.find? fun f => f.frameId == fid).getD ⟨fid, []⟩ := by
  cases h : a.reverse.find? fun f => f.frameId == fid <;> simp [lookupFrame, h]

theorem processGroup_eq_spec (θ : ℚ) (a : List ActualFrame) (k : ℕ)
    (g : List ExpectedFrame) :
    processGroup θ a k g =
      (fun anchor => g.map fun ef =>
        (⟨anchor + ef.offset_frame, k, ef.offset_frame,
          (match_frame θ ⟨anchor + ef.offset_frame, ef.detectedAreas⟩
            ((a.reverse.find? fun fr => fr.frameId == anchor + ef.offset_frame).getD
              ⟨anchor + ef.offset_frame, []⟩)).1,
          (match_frame θ ⟨anchor + ef.offset_frame, ef.detectedAreas⟩
            ((a.reverse.find? fun fr => fr.frameId == anchor + ef.offset_frame).getD
              ⟨anchor + ef.offset_frame, []⟩)).2⟩ : FrameResult))
      (match g.head? with
        | none => (0 : ℤ)
        | some first =>
          match a.find? (fun fr => fr.detectedAreas.any fun aa =>
              first.detectedAreas.any fun ea => ea.ruleCode == aa.ruleCode &&
                decide (θ ≤ calculate_iou ea.boundingBox aa.boundingBox)) with
          | some fr => fr.frameId
          | none => 0) := by
  cases g with
  | nil => rfl
  | cons first rest =>
    rw [processGroup]
    have hpred : (fun fr : ActualFrame => fr.detectedAreas.any fun aa =>
        first.detectedAreas.any fun ea => ea.ruleCode == aa.ruleCode &&
          decide (θ ≤ calculate_iou ea.boundingBox aa.boundingBox)) =
        frameHasMatch θ first.detectedAreas := by
      funext fr
      exact (frameHasMatch_swap θ first.detectedAreas fr).symm
    rw [List.head?_cons]
    dsimp only
    rw [hpred, ← find_first_eq_find? θ a first]
    refine List.map_congr_left fun ef _ => ?_
    rw [lookupFrame_eq_getD]

/-- C3: on the Approve full-alignment path, each `expect_id` group's
anchor is the `frameId` of the first actual frame (in supplied order)
containing a detected area whose rule code equals that of one of the
group's first expected frame's areas with IoU at or above the threshold
(0 when no such frame exists); every expected frame of the group
resolves to `anchor + offset_frame`, and the comparison at an absolute
id with no actual frame uses a frame with zero detections. -/
theorem C3_anchor_resolution (θ : ℚ) (e : Expectation) (a : List ActualFrame)
    (hs : pyLower e.expected_status ≠ "reject") (ha : a ≠ []) :
    (validate_video θ e a).frame_results =
      (groupKeys e.expected_frames).flatMap fun k =>
        (fun anchor => (e.expected_frames.filter fun f => f.expect_id == k).map fun ef =>
          (⟨anchor + ef.offset_frame, k, ef.offset_frame,
            (match_frame θ ⟨anchor + ef.offset_frame, ef.detectedAreas⟩
              ((a.reverse.find? fun fr => fr.frameId == anchor + ef.offset_frame).getD
                ⟨anchor + ef.offset_frame, []⟩)).1,
            (match_frame θ ⟨anchor + ef.offset_frame, ef.detectedAreas⟩
              ((a.reverse.find? fun fr => fr.frameId == anchor + ef.offset_frame).getD
                ⟨anchor + ef.offset_frame, []⟩)).2⟩ : FrameResult))
        (match (e.expected_frames.filter fun f => f.expect_id == k).head? with
          | none => (0 : ℤ)
          | some first =>
            match a.find? (fun fr => fr.detectedAreas.any fun aa =>
                first.detectedAreas.any fun ea => ea.ruleCode == aa.ruleCode &&
                  decide (θ ≤ calculate_iou ea.boundingBox aa.boundingBox)) with
            | some fr => fr.frameId
            | none => 0) := by
  rw [validate_video_of_not_reject θ e a hs]
  unfold validate_approve
  rw [if_neg ha]
  dsimp only
  simp only [processGroup_eq_spec]

/-- C3 witness: one group, one actual frame with a perfectly overlapping
detection; the frame-results list is exactly the spec-side expression. -/
theorem C3_anchor_resolution_witness :
    pyLower "Approve" ≠ "reject" ∧
    (validate_video (1 / 2)
        ⟨"v", "tc", "d", "Approve", [⟨0, 0, 0, [⟨"R", ⟨0, 0, 10, 10⟩⟩]⟩]⟩
        [⟨5, [⟨"R", ⟨0, 0, 10, 10⟩⟩]⟩]).frame_results =
      (groupKeys [⟨0, 0, 0, [⟨"R", ⟨0, 0, 10, 10⟩⟩]⟩]).flatMap fun k =>
        (fun anchor => (([⟨0, 0, 0, [⟨"R", ⟨0, 0, 10, 10⟩⟩]⟩] :
            List ExpectedFrame).filter fun f => f.expect_id == k).map fun ef =>
          (⟨anchor + ef.offset_frame, k, ef.offset_frame,
            (match_frame (1 / 2) ⟨anchor + ef.offset_frame, ef.detectedAreas⟩
              ((([⟨5, [⟨"R", ⟨0, 0, 10, 10⟩⟩]⟩] : List ActualFrame).reverse.find?
                  fun fr => fr.frameId == anchor + ef.offset_frame).getD
                ⟨anchor + ef.offset_frame, []⟩)).1,
            (match_frame (1 / 2) ⟨anchor + ef.offset_frame, ef.detectedAreas⟩
              ((([⟨5, [⟨"R", ⟨0, 0, 10, 10⟩⟩]⟩] : List ActualFrame).reverse.find?
                  fun fr => fr.frameId == anchor + ef.offset_frame).getD
                ⟨anchor + ef.offset_frame, []⟩)).2⟩ : FrameResult))
        (match (([⟨0, 0, 0, [⟨"R", ⟨0, 0, 10, 10⟩⟩]⟩] :
            List ExpectedFrame).filter fun f => f.expect_id == k).head? with
          | none => (0 : ℤ)
          | some first =>
            match ([⟨5, [⟨"R", ⟨0, 0, 10, 10⟩⟩]⟩] : List ActualFrame).find?
                (fun fr => fr.detectedAreas.any fun aa =>
                  first.detectedAreas.any fun ea => ea.ruleCode == aa.ruleCode &&
                    decide ((1 / 2 : ℚ) ≤ calculate_iou ea.boundingBox aa.boundingBox)) with
            | some fr => fr.frameId
            | none => 0) :=
  ⟨by rw [pyLower_Approve]; decide,
    C3_anchor_resolution (1 / 2)
      ⟨"v", "tc", "d", "Approve", [⟨0, 0, 0, [⟨"R", ⟨0, 0, 10, 10⟩⟩]⟩]⟩
      [⟨5, [⟨"R", ⟨0, 0, 10, 10⟩⟩]⟩] (by rw [pyLower_Approve]; decide) (by simp)⟩

/-! ### C9: totality and degenerate-input policy -/

theorem flatMap_congr_mem {α β : Type} (l : List α) (f g : α → List β)
    (h : ∀ x ∈ l, f x = g x) : l.flatMap f = l.flatMap g := by
  induction l with
  | nil => rfl
  | cons x t ih =>
    rw [List.flatMap_cons, List.flatMap_cons, h x (List.mem_cons_self x t),
      ih fun y hy => h y (List.mem_cons_of_mem x hy)]

theorem flatMap_filter_perm (ks : List ℕ) (l : List ExpectedFrame) (hnd : ks.Nodup)
    (hcov : ∀ f ∈ l, f.expect_id ∈ ks) :
    List.Perm (ks.flatMap fun k => l.filter fun f => f.expect_id == k) l := by
  induction ks generalizing l with
  | nil =>
    cases l with
    | nil => exact List.Perm.refl _
    | cons f t => exact absurd (hcov f (List.mem_cons_self f t)) (List.not_mem_nil _)
  | cons k rest ih =>
    rw [List.flatMap_cons]
    have hknr : k ∉ rest := (List.nodup_cons.mp hnd).1
    have hrest : (rest.flatMap fun k' => l.filter fun f => f.expect_id == k') =
        rest.flatMap fun k' =>
          (l.filter fun f => !(f.expect_id == k)).filter fun f => f.expect_id == k' := by
      refine flatMap_congr_mem rest _ _ fun k' hk' => ?_
      rw [List.filter_filter]
      refine (List.filter_congr fun f _ => ?_)
      have hkk : k' ≠ k := fun hkk => hknr (hkk ▸ hk')
      by_cases hf : f.expect_id = k'
      · simp [hf, hkk]
      · simp [hf]
    rw [hrest]
    have hcov2 : ∀ f ∈ (l.filter fun f => !(f.expect_id == k)), f.expect_id ∈ rest := by
      intro f hf
      have hmem : f ∈ l := List.mem_of_mem_filter hf
      have hne : ¬(f.expect_id == k) = true := by simpa using List.of_mem_filter hf
      have := hcov f hmem
      rcases List.mem_cons.mp this with h | h
      · exact absurd (by simpa using h) hne
      · exact h
    refine ((ih (l.filter fun f => !(f.expect_id == k))
      (List.nodup_cons.mp hnd).2 hcov2).append_left _).trans ?_
    exact List.filter_append_perm _ l

theorem groupKeys_nodup (fs : List ExpectedFrame) : (groupKeys fs).Nodup := by
  have h := List.perm_insertionSort (fun a c : ℕ => a ≤ c) (fs.map (·.expect_id)).dedup
  exact h.symm.nodup (List.nodup_dedup _)

theorem mem_groupKeys (fs : List ExpectedFrame) : ∀ f ∈ fs, f.expect_id ∈ groupKeys fs := by
  intro f hf
  have h := List.perm_insertionSort (fun a c : ℕ => a ≤ c) (fs.map (·.expect_id)).dedup
  rw [groupKeys]
  refine h.mem_iff.mpr ?_
  rw [List.mem_dedup]
  exact List.mem_map_of_mem _ hf

theorem groupKeys_flatMap_perm (fs : List ExpectedFrame) :
    List.Perm ((groupKeys fs).flatMap fun k => fs.filter fun f => f.expect_id == k) fs :=
  flatMap_filter_perm (groupKeys fs) fs (groupKeys_nodup fs) (mem_groupKeys fs)

theorem processGroup_length (θ : ℚ) (a : List ActualFrame) (k : ℕ)
    (g : List ExpectedFrame) : (processGroup θ a k g).length = g.length := by
  cases g <;> simp [processGroup]

theorem bestMatchFold_nil (e : DetectedArea) : bestMatchFold e [] = (none, 0) := rfl

theorem match_frame_empty_actual (θ : ℚ) (hθ : 0 < θ) (i : ℤ) (eas : List DetectedArea)
    (af : ActualFrame) (hact : af.detectedAreas = []) :
    ((match_frame θ ⟨i, eas⟩ af).1 = true ↔ (match_frame θ ⟨i, eas⟩ af).2 = []) := by
  by_cases he : eas = []
  · subst he
    rw [match_frame]
    simp [hact]
  · rw [match_frame, if_neg he]
    dsimp only
    simp only [hact, bestMatchFold_nil]
    have hfalse : (decide (θ ≤ (0 : ℚ))) = false := decide_eq_false (not_le.mpr hθ)
    simp [hfalse, he, List.countP_eq_zero]
    exact List.exists_mem_of_ne_nil eas he

/-- C9: on well-formed inputs the validator is total and never raises:
on the Approve path every expected frame yields exactly one frame result
(anchor found or not), the verdict is always one of `"PASSED"` or
`"FAILED"`, an absolute id with no actual frame resolves to a frame with
zero detections, and a comparison against a frame with zero detections
is matched only when the expectation is also empty. -/
theorem C9_total_and_degenerate (θ : ℚ) (e : Expectation) (a : List ActualFrame)
    (hθ : 0 < θ) (hs : pyLower e.expected_status ≠ "reject") (ha : a ≠ []) :
    (validate_video θ e a).frame_results.length = e.expected_frames.length ∧
    ((validate_video θ e a).detect_result = "PASSED" ∨
      (validate_video θ e a).detect_result = "FAILED") ∧
    (∀ fid : ℤ, (∀ f ∈ a, f.frameId ≠ fid) → lookupFrame a fid = ⟨fid, []⟩) ∧
    (∀ fr ∈ (validate_video θ e a).frame_results,
      (lookupFrame a fr.frameId).detectedAreas = [] →
        (fr.matched = true ↔ fr.details = [])) := by
  rw [validate_video_of_not_reject θ e a hs]
  unfold validate_approve
  rw [if_neg ha]
  dsimp only
  refine ⟨?_, ?_, ?_, ?_⟩
  · rw [List.length_flatMap]
    have h1 : ((groupKeys e.expected_frames).map
        (List.length ∘ fun k =>
          processGroup θ a k (e.expected_frames.filter fun f => f.expect_id == k))) =
        (groupKeys e.expected_frames).map
          (List.length ∘ fun k => e.expected_frames.filter fun f => f.expect_id == k) :=
      List.map_congr_left fun k _ => processGroup_length θ a k _
    rw [h1, ← List.length_flatMap]
    exact (groupKeys_flatMap_perm e.expected_frames).length_eq
  · exact ite_eq_or_eq _ _ _
  · intro fid hfid
    rw [lookupFrame_eq_getD]
    have hn : (a.reverse.find? fun f => f.frameId == fid) = none := by
      rw [List.find?_eq_none]
      intro f hf
      simpa using hfid f (List.mem_reverse.mp hf)
    rw [hn]
    rfl
  · intro fr hfr hempty
    obtain ⟨k, hk, hfr2⟩ := List.mem_flatMap.mp hfr
    cases hg : (e.expected_frames.filter fun f => f.expect_id == k) with
    | nil =>
      rw [hg] at hfr2
      cases hfr2
    | cons first rest =>
      rw [hg, processGroup] at hfr2
      obtain ⟨ef, hef, rfl⟩ := List.mem_map.mp hfr2
      exact match_frame_empty_actual θ hθ _ ef.detectedAreas _ hempty

/-- C9 witness: a one-frame expectation whose group has no discoverable
anchor (rule codes differ) still yields a full report: one frame result
and a FAILED verdict, with the missing lookup defaulting to an empty
frame. -/
theorem C9_total_and_degenerate_witness :
    (0 : ℚ) < 1 / 2 ∧ pyLower "Approve" ≠ "reject" ∧
    ([⟨9, [⟨"S", ⟨0, 0, 10, 10⟩⟩]⟩] : List ActualFrame) ≠ [] ∧
    (validate_video (1 / 2)
        ⟨"v", "tc", "d", "Approve", [⟨0, 0, 0, [⟨"R", ⟨0, 0, 10, 10⟩⟩]⟩]⟩
        [⟨9, [⟨"S", ⟨0, 0, 10, 10⟩⟩]⟩]).frame_results.length =
      ([⟨0, 0, 0, [⟨"R", ⟨0, 0, 10, 10⟩⟩]⟩] : List ExpectedFrame).length :=
  ⟨by norm_num, by rw [pyLower_Approve]; decide, by simp,
    (C9_total_and_degenerate (1 / 2)
      ⟨"v", "tc", "d", "Approve", [⟨0, 0, 0, [⟨"R", ⟨0, 0, 10, 10⟩⟩]⟩]⟩
      [⟨9, [⟨"S", ⟨0, 0, 10, 10⟩⟩]⟩] (by norm_num)
      (by rw [pyLower_Approve]; decide) (by simp)).1⟩

/-! ### C7: anchor translation invariance -/

/-- Shift every actual frame id by the constant `k`, keeping order and
detected areas unchanged. -/
def shiftFrames (k : ℤ) (a : List ActualFrame) : List ActualFrame :=
  a.map fun f => ⟨f.frameId + k, f.detectedAreas⟩

/-- Shift a frame result's resolved absolute id by the constant `k`. -/
def shiftResult (k : ℤ) (fr : FrameResult) : FrameResult :=
  ⟨fr.frameId + k, fr.expect_id, fr.offset_frame, fr.matched, fr.details⟩

theorem frameHasMatch_shift (θ : ℚ) (eas : List DetectedArea) (k : ℤ) (f : ActualFrame) :
    frameHasMatch θ eas ⟨f.frameId + k, f.detectedAreas⟩ = frameHasMatch θ eas f := rfl

theorem findFirstAux_shift (θ : ℚ) (eas : List DetectedArea) (k : ℤ) :
    ∀ a : List ActualFrame, (∃ f ∈ a, frameHasMatch θ eas f = true) →
      findFirstAux θ eas (shiftFrames k a) = findFirstAux θ eas a + k := by
  intro a
  induction a with
  | nil => rintro ⟨f, hf, -⟩; cases hf
  | cons f t ih =>
    intro hex
    rw [shiftFrames, List.map_cons]
    by_cases h : frameHasMatch θ eas f
    · rw [findFirstAux, findFirstAux, frameHasMatch_shift, if_pos h, if_pos h]
    · rw [findFirstAux, findFirstAux, frameHasMatch_shift, if_neg h, if_neg h]
      rcases hex with ⟨g, hg, hmatch⟩
      rcases List.mem_cons.mp hg with rfl | hgt
      · exact absurd hmatch h
      · exact ih ⟨g, hgt, hmatch⟩

theorem find_first_shift (θ : ℚ) (a : List ActualFrame) (k : ℤ) (eff : ExpectedFrame)
    (hex : ∃ f ∈ a, frameHasMatch θ eff.detectedAreas f = true) :
    find_first_detection_frame_with_iou θ (shiftFrames k a) eff =
      find_first_detection_frame_with_iou θ a eff + k := by
  by_cases he : eff.detectedAreas = []
  · rcases hex with ⟨f, -, hmatch⟩
    rw [he] at hmatch
    simp [frameHasMatch] at hmatch
  · rw [find_first_detection_frame_with_iou, find_first_detection_frame_with_iou,
      if_neg he, if_neg he]
    exact findFirstAux_shift θ eff.detectedAreas k a hex

theorem lookupFrame_shift (a : List ActualFrame) (k x : ℤ) :
    lookupFrame (shiftFrames k a) (x + k) =
      ⟨(lookupFrame a x).frameId + k, (lookupFrame a x).detectedAreas⟩ := by
  rw [lookupFrame_eq_getD, lookupFrame_eq_getD, shiftFrames, ← List.map_reverse,
    List.find?_map]
  have hpred : ((fun f : ActualFrame => f.frameId == x + k) ∘
      fun f : ActualFrame => (⟨f.frameId + k, f.detectedAreas⟩ : ActualFrame)) =
      fun f : ActualFrame => f.frameId == x := by
    funext f
    rw [Bool.eq_iff_iff]
    simp [Function.comp]
  rw [hpred]
  cases h : a.reverse.find? fun f => f.frameId == x <;> simp [h]

theorem match_frame_eq_of_das (θ : ℚ) (i j : ℤ) (eas : List DetectedArea)
    (af af' : ActualFrame) (h : af.detectedAreas = af'.detectedAreas) :
    match_frame θ ⟨i, eas⟩ af = match_frame θ ⟨j, eas⟩ af' := by
  rw [match_frame, match_frame]
  dsimp only
  rw [h]

theorem processGroup_shift (θ : ℚ) (a : List ActualFrame) (k : ℤ) (kid : ℕ)
    (g : List ExpectedFrame)
    (hanchor : ∀ first ∈ g.head?, ∃ f ∈ a, frameHasMatch θ first.detectedAreas f = true) :
    processGroup θ (shiftFrames k a) kid g = (processGroup θ a kid g).map (shiftResult k) := by
  cases g with
  | nil => rfl
  | cons first rest =>
    have hex := hanchor first (by rw [List.head?_cons]; rfl)
    rw [processGroup, processGroup, List.map_map]
    refine List.map_congr_left fun ef _ => ?_
    dsimp only [Function.comp, shiftResult]
    rw [find_first_shift θ a k first hex]
    have habs : find_first_detection_frame_with_iou θ a first + k + ef.offset_frame =
        find_first_detection_frame_with_iou θ a first + ef.offset_frame + k := by ring
    rw [habs, lookupFrame_shift a k (find_first_detection_frame_with_iou θ a first + ef.offset_frame)]
    rw [match_frame_eq_of_das θ
      (find_first_detection_frame_with_iou θ a first + ef.offset_frame + k)
      (find_first_detection_frame_with_iou θ a first + ef.offset_frame)
      ef.detectedAreas
      ⟨(lookupFrame a (find_first_detection_frame_with_iou θ a first + ef.offset_frame)).frameId + k,
        (lookupFrame a (find_first_detection_frame_with_iou θ a first + ef.offset_frame)).detectedAreas⟩
      (lookupFrame a (find_first_detection_frame_with_iou θ a first + ef.offset_frame)) rfl]

/-- C7: anchor translation invariance — when every group's anchor match
exists among the actual frames, shifting every actual `frameId` by a
constant `k` (order and detected areas unchanged) shifts every resolved
absolute frame id by exactly `k` and leaves `matched_frames`, `accuracy`
and `detect_result` unchanged. -/
theorem C7_anchor_translation_invariance (θ : ℚ) (e : Expectation) (a : List ActualFrame)
    (k : ℤ) (hs : pyLower e.expected_status ≠ "reject") (ha : a ≠ [])
    (hanchor : ∀ kid ∈ groupKeys e.expected_frames,
      ∀ first ∈ (e.expected_frames.filter fun f => f.expect_id == kid).head?,
        ∃ f ∈ a, frameHasMatch θ first.detectedAreas f = true) :
    (validate_video θ e (shiftFrames k a)).frame_results =
      (validate_video θ e a).frame_results.map (shiftResult k) ∧
    (validate_video θ e (shiftFrames k a)).matched_frames =
      (validate_video θ e a).matched_frames ∧
    (validate_video θ e (shiftFrames k a)).accuracy = (validate_video θ e a).accuracy ∧
    (validate_video θ e (shiftFrames k a)).detect_result =
      (validate_video θ e a).detect_result := by
  have ha' : shiftFrames k a ≠ [] := by
    cases a with
    | nil => exact absurd rfl ha
    | cons f t => simp [shiftFrames]
  rw [validate_video_of_not_reject θ e a hs, validate_video_of_not_reject θ e _ hs]
  unfold validate_approve
  rw [if_neg ha, if_neg ha']
  have hmain : ((groupKeys e.expected_frames).flatMap fun kid =>
      processGroup θ (shiftFrames k a) kid (e.expected_frames.filter fun f => f.expect_id == kid)) =
      ((groupKeys e.expected_frames).flatMap fun kid =>
        processGroup θ a kid (e.expected_frames.filter fun f => f.expect_id == kid)).map
        (shiftResult k) := by
    rw [List.map_flatMap]
    exact flatMap_congr_mem _ _ _ fun kid hkid =>
      processGroup_shift θ a k kid _ (hanchor kid hkid)
  have hcount : (((groupKeys e.expected_frames).flatMap fun kid =>
      processGroup θ (shiftFrames k a) kid
        (e.expected_frames.filter fun f => f.expect_id == kid)).countP (·.matched)) =
      (((groupKeys e.expected_frames).flatMap fun kid =>
        processGroup θ a kid (e.expected_frames.filter fun f => f.expect_id == kid)).countP
        (·.matched)) := by
    rw [hmain, List.countP_map]
    rfl
  dsimp only
  rw [hcount, hmain]
  exact ⟨rfl, rfl, rfl, rfl⟩

/-- C7 witness: shifting the single anchored actual frame (id 5) by
`k = 7` leaves accuracy and verdict unchanged. -/
theorem C7_anchor_translation_invariance_witness :
    (validate_video (1 / 2)
        ⟨"v", "tc", "d", "Approve", [⟨0, 0, 0, [⟨"R", ⟨0, 0, 10, 10⟩⟩]⟩]⟩
        (shiftFrames 7 [⟨5, [⟨"R", ⟨0, 0, 10, 10⟩⟩]⟩])).accuracy =
      (validate_video (1 / 2)
        ⟨"v", "tc", "d", "Approve", [⟨0, 0, 0, [⟨"R", ⟨0, 0, 10, 10⟩⟩]⟩]⟩
        [⟨5, [⟨"R", ⟨0, 0, 10, 10⟩⟩]⟩]).accuracy ∧
    (validate_video (1 / 2)
        ⟨"v", "tc", "d", "Approve", [⟨0, 0, 0, [⟨"R", ⟨0, 0, 10, 10⟩⟩]⟩]⟩
        (shiftFrames 7 [⟨5, [⟨"R", ⟨0, 0, 10, 10⟩⟩]⟩])).detect_result =
      (validate_video (1 / 2)
        ⟨"v", "tc", "d", "Approve", [⟨0, 0, 0, [⟨"R", ⟨0, 0, 10, 10⟩⟩]⟩]⟩
        [⟨5, [⟨"R", ⟨0, 0, 10, 10⟩⟩]⟩]).detect_result :=
  (C7_anchor_translation_invariance (1 / 2)
    ⟨"v", "tc", "d", "Approve", [⟨0, 0, 0, [⟨"R", ⟨0, 0, 10, 10⟩⟩]⟩]⟩
    [⟨5, [⟨"R", ⟨0, 0, 10, 10⟩⟩]⟩] 7
    (by rw [pyLower_Approve]; decide) (by simp)
    (by
      intro kid hkid first hfirst
      have hkid0 : kid = 0 := by
        rw [show groupKeys [⟨0, 0, 0, [⟨"R", ⟨0, 0, 10, 10⟩⟩]⟩] = [0] from rfl] at hkid
        simpa using hkid
      subst hkid0
      have hf : first = ⟨0, 0, 0, [⟨"R", ⟨0, 0, 10, 10⟩⟩]⟩ := by
        rw [show (([⟨0, 0, 0, [⟨"R", ⟨0, 0, 10, 10⟩⟩]⟩] : List ExpectedFrame).filter
          fun f => f.expect_id == 0).head? = some ⟨0, 0, 0, [⟨"R", ⟨0, 0, 10, 10⟩⟩]⟩
          from rfl] at hfirst
        exact (by simpa using hfirst : _ = first).symm
      subst hf
      exact ⟨⟨5, [⟨"R", ⟨0, 0, 10, 10⟩⟩]⟩, by simp, by with_unfolding_all decide⟩)).2.2
